import Mathlib

/-!
Shallow embedding of the ToyRobot program (src/robot.py) and proofs of the
specified properties. The Python module is a single state machine: a `Robot`
holding a placed flag, a position, and a facing direction, driven by textual
command lines (PLACE / MOVE / LEFT / RIGHT / REPORT / EXIT). Typed failures
are raised as `InvalidOperationException` values carrying a message; untyped
Python faults (ValueError from int(), TypeError from unexpected keyword
arguments) are modelled by a separate constructor so that the two kinds of
failure stay distinguishable.
-/

namespace ToyRobot

/-! ### Python string primitives, modelled structurally over lists of
characters so that every operation reduces in the kernel. -/

/-- The ASCII whitespace characters removed by Python str.strip(). -/
def isPySpace (c : Char) : Bool :=
  c == ' ' || c == '\t' || c == '\n' || c == '\r' || c == '\x0b' || c == '\x0c'

/-- Remove leading and trailing whitespace characters. -/
def stripChars (l : List Char) : List Char :=
  ((l.dropWhile isPySpace).reverse.dropWhile isPySpace).reverse

/-- Model of Python str.strip(). -/
def pyStrip (s : String) : String := String.mk (stripChars s.data)

/-- Helper for splitting on a separator character, keeping empty fields,
as Python str.split(sep) does. -/
def splitOnCharAux (c : Char) : List Char → List Char → List (List Char)
  | [], acc => [acc.reverse]
  | x :: xs, acc =>
    if x == c then acc.reverse :: splitOnCharAux c xs []
    else splitOnCharAux c xs (x :: acc)

/-- Model of Python str.split(sep) for a one-character separator. -/
def splitOnChar (c : Char) (s : String) : List String :=
  (splitOnCharAux c s.data []).map String.mk

/-- Helper for Python str.split(' ', 1): cut at the first space, if any. -/
def splitFirstSpaceAux : List Char → List Char → String × Option String
  | [], acc => (String.mk acc.reverse, none)
  | x :: xs, acc =>
    if x == ' ' then (String.mk acc.reverse, some (String.mk xs))
    else splitFirstSpaceAux xs (x :: acc)

/-- Model of Python str.split(' ', 1): the keyword and the optional rest. -/
def splitFirstSpace (s : String) : String × Option String :=
  splitFirstSpaceAux s.data []

/-- Model of Python str.upper() restricted to ASCII letters. -/
def pyUpper (s : String) : String := String.mk (s.data.map Char.toUpper)

/-- Read a nonempty run of decimal digits as a number; none on any other
input. -/
def readDigits : List Char → Nat → Option Nat
  | [], acc => some acc
  | c :: cs, acc =>
    if c.isDigit then readDigits cs (10 * acc + (c.toNat - 48)) else none

/-- Nonempty all-digit strings only. -/
def readNatDigits : List Char → Option Nat
  | [] => none
  | l => readDigits l 0

/-- Model of Python int(str) on its ASCII decimal forms: surrounding
whitespace is ignored, one optional sign, then at least one digit.
A none result corresponds to the ValueError that int() raises. -/
def pyInt (s : String) : Option Int :=
  match stripChars s.data with
  | [] => none
  | '+' :: rest => (readNatDigits rest).map (fun n => (n : Int))
  | '-' :: rest => (readNatDigits rest).map (fun n => -(n : Int))
  | l => (readNatDigits l).map (fun n => (n : Int))

/-! ### The robot data model (robot.py lines 6-46). -/

/-- Sequence of direction names in the order of turning right
(robot.py DIRECTIONS, line 7). -/
def DIRECTIONS : List String := ["NORTH", "EAST", "SOUTH", "WEST"]

/-- Position change when the robot facing each direction moves one step
(robot.py STEP_BY_DIRECTION, lines 10-15); none models dict.get misses. -/
def STEP_BY_DIRECTION (d : String) : Option (Int × Int) :=
  if d == "NORTH" then some (0, 1)
  else if d == "SOUTH" then some (0, -1)
  else if d == "EAST" then some (1, 0)
  else if d == "WEST" then some (-1, 0)
  else none

/-- Size in x and y direction of the map (robot.py MAP_SIZE, line 18). -/
def MAP_SIZE : Nat × Nat := (5, 5)

/-- The mutable fields of the Python Robot object. The direction is kept as
the string the source stores. -/
structure RobotState where
  placed : Bool
  map_size_x : Nat
  map_size_y : Nat
  pos : Option (Int × Int)
  direction : Option String
deriving DecidableEq, Repr

/-- Robot.__init__ (robot.py lines 28-46). -/
def mkRobot (map_size : Nat × Nat) : RobotState :=
  { placed := false
    map_size_x := map_size.1
    map_size_y := map_size.2
    pos := none
    direction := none }

/-- A fresh robot on the default map. -/
def initRobot : RobotState := mkRobot MAP_SIZE

/-- Robot.is_valid_pos (robot.py lines 178-191): membership of each
coordinate in range(map_size). -/
def is_valid_pos (s : RobotState) (pos : Int × Int) : Bool :=
  decide (0 ≤ pos.1) && decide (pos.1 < (s.map_size_x : Int)) &&
  decide (0 ≤ pos.2) && decide (pos.2 < (s.map_size_y : Int))

/-- Robot.is_valid_direction (robot.py lines 193-202). -/
def is_valid_direction (d : String) : Bool := DIRECTIONS.contains d

/-! ### Results of executing a command. -/

/-- The distinct raise sites of InvalidOperationException in robot.py,
with the data their messages carry. -/
inductive CmdError
  | invalidCommand
  | notPlaced
  | missingPlaceArgument
  | malformedPlaceArgument (ad : String)
  | outOfBounds (mx my : Nat)
  | invalidHeading
  | unreachableDestination (dest : Int × Int)
  | invalidTurnDirection (d : String)
deriving DecidableEq, Repr

/-- The message string each exception is constructed with. -/
def message : CmdError → String
  | .invalidCommand => "Invalid command. Abort."
  | .notPlaced => "A robot must be placed before any other command can be executed. Abort."
  | .missingPlaceArgument =>
      "Expect command to be \"PLACE <X>, <Y>, <Facing>\", got \"PLACE\""
  | .malformedPlaceArgument ad =>
      "Expect command to be \"PLACE <X>, <Y>, <Facing>\", got \"PLACE " ++ ad ++ "\""
  | .outOfBounds mx my =>
      "Invalid position in the map, should be within 0 to " ++ toString mx ++
        " in X and 0 to " ++ toString my ++ " in Y."
  | .invalidHeading =>
      "Invalid direction, should be one of (\x27NORTH\x27, \x27EAST\x27, \x27SOUTH\x27, \x27WEST\x27)"
  | .unreachableDestination dest =>
      "Destination (" ++ toString dest.1 ++ ", " ++ toString dest.2 ++ ") cannot be reached."
  | .invalidTurnDirection d =>
      "Turning direction should be either LEFT or RIGHT, got " ++ d

/-- Untyped Python faults that escape the InvalidOperationException
handler of the driver loop. -/
inductive PyFault
  | valueError (tok : String)
  | typeError (fn : String)
deriving DecidableEq, Repr

/-- Outcome of one handler call: normal return with printed lines, the
process exit of EXIT, a typed exception, or an untyped fault. The state
the object is left in accompanies every outcome. -/
inductive ExecResult
  | ok (s : RobotState) (out : List String)
  | exitSignal (s : RobotState) (out : List String)
  | err (e : CmdError) (s : RobotState)
  | fault (f : PyFault) (s : RobotState)
deriving DecidableEq, Repr

/-- The state an outcome leaves the robot in. -/
def stateOf : ExecResult → RobotState
  | .ok s _ => s
  | .exitSignal s _ => s
  | .err _ s => s
  | .fault _ s => s

/-! ### The five handlers (robot.py lines 96-176). -/

/-- Robot.place (robot.py lines 96-126): split the argument on commas and
strip each part, demand exactly three parts, convert the first two with
int() (an unparseable token raises the untyped ValueError of int), then
validate position before direction; on success set pos, direction and
placed. -/
def place (s : RobotState) (action_details : Option String) : ExecResult :=
  match action_details with
  | none => .err .missingPlaceArgument s
  | some ad =>
    match (splitOnChar ',' ad).map pyStrip with
    | [pos_x, pos_y, direction] =>
      match pyInt pos_x with
      | none => .fault (.valueError pos_x) s
      | some x =>
        match pyInt pos_y with
        | none => .fault (.valueError pos_y) s
        | some y =>
          if is_valid_pos s (x, y) then
            if is_valid_direction direction then
              .ok { s with pos := some (x, y), direction := some direction, placed := true } []
            else .err .invalidHeading s
          else .err (.outOfBounds s.map_size_x s.map_size_y) s
    | _ => .err (.malformedPlaceArgument ad) s

/-- Robot.move (robot.py lines 128-141) with its should_have_been_placed
decorator: check placed, add the step vector of the current direction,
validate the destination, commit on success. The zip of a missing pos or
step raises a TypeError in Python; that case is unreachable through
commands. -/
def move (s : RobotState) : ExecResult :=
  if s.placed = false then .err .notPlaced s
  else
    match s.direction with
    | none => .fault (.typeError "zip") s
    | some d =>
      match STEP_BY_DIRECTION d with
      | none => .fault (.typeError "zip") s
      | some step =>
        match s.pos with
        | none => .fault (.typeError "zip") s
        | some p =>
          let next_pos : Int × Int := (p.1 + step.1, p.2 + step.2)
          if is_valid_pos s next_pos then .ok { s with pos := some next_pos } []
          else .err (.unreachableDestination next_pos) s

/-- Robot.turn (robot.py lines 143-163) with its decorator: look up the
index of the current direction in DIRECTIONS and shift it by +1 mod 4 for
RIGHT and by -1 mod 4 (written +3 mod 4 on Nat) for LEFT. tuple.index on a
stored direction outside DIRECTIONS raises a ValueError, unreachable
through commands. -/
def turn (s : RobotState) (turning_direction : String) : ExecResult :=
  if s.placed = false then .err .notPlaced s
  else
    match s.direction with
    | none => .fault (.valueError "None") s
    | some d =>
      match DIRECTIONS.findIdx? (fun x => x == d) with
      | none => .fault (.valueError d) s
      | some i =>
        if turning_direction == "RIGHT" then
          .ok { s with direction := some (DIRECTIONS.getD ((i + 1) % 4) "") } []
        else if turning_direction == "LEFT" then
          .ok { s with direction := some (DIRECTIONS.getD ((i + 3) % 4) "") } []
        else .err (.invalidTurnDirection turning_direction) s

/-- Robot.report (robot.py lines 165-170) with its decorator: print the
position and direction; printing is modelled as the returned output line. -/
def report (s : RobotState) : ExecResult :=
  if s.placed = false then .err .notPlaced s
  else
    match s.pos with
    | none => .fault (.typeError "unpack") s
    | some p =>
      .ok s [toString p.1 ++ ", " ++ toString p.2 ++ ", " ++ s.direction.getD "None"]

/-- Robot.terminate (robot.py lines 172-176): print the farewell line and
exit the process, modelled as the distinguished exit signal. -/
def terminate (s : RobotState) : ExecResult :=
  .exitSignal s ["End of service."]

/-- The dispatch through command_map inside Robot.execute_command
(robot.py lines 76-83). Extra text after MOVE, REPORT or EXIT becomes an
action_details keyword argument their handlers cannot accept, a Python
TypeError; for the decorated MOVE and REPORT the placed check of the
decorator fires before that call is bound. -/
def dispatch (s : RobotState) (action : String) (action_details : Option String) : ExecResult :=
  if action == "PLACE" then place s action_details
  else if action == "LEFT" then turn s "LEFT"
  else if action == "RIGHT" then turn s "RIGHT"
  else if action == "MOVE" then
    match action_details with
    | none => move s
    | some _ =>
      if s.placed = false then .err .notPlaced s else .fault (.typeError "move") s
  else if action == "REPORT" then
    match action_details with
    | none => report s
    | some _ =>
      if s.placed = false then .err .notPlaced s else .fault (.typeError "report") s
  else if action == "EXIT" then
    match action_details with
    | none => terminate s
    | some _ => .fault (.typeError "terminate") s
  else .err .invalidCommand s

/-- Robot.execute_command (robot.py lines 65-83): strip the line, split off
the keyword at the first space, dispatch on the keyword. -/
def execute_command (s : RobotState) (command : String) : ExecResult :=
  dispatch s (splitFirstSpace (pyStrip command)).1 (splitFirstSpace (pyStrip command)).2

/-- The command loop of Robot.run (robot.py lines 54-60): uppercase each
line, execute it, print the message of a caught InvalidOperationException
and continue with the next line; stop at the exit signal of EXIT or at an
uncaught fault. Returns the final state and everything printed. -/
def runLines (s : RobotState) : List String → RobotState × List String
  | [] => (s, [])
  | line :: rest =>
    match execute_command s (pyUpper line) with
    | .ok s2 out =>
      let r := runLines s2 rest
      (r.1, out ++ r.2)
    | .exitSignal s2 out => (s2, out)
    | .err e s2 =>
      let r := runLines s2 rest
      (r.1, message e :: r.2)
    | .fault _ s2 => (s2, [])

/-- The data-model invariant of the spec: position and heading are defined
exactly when placed, and a placed robot sits inside the map. -/
def inv (s : RobotState) : Bool :=
  (s.placed == (s.pos.isSome && s.direction.isSome)) &&
  (if s.placed then
    (match s.pos with
     | some p => is_valid_pos s p
     | none => false)
   else true)

/-! ### Case-analysis lemmas for the handlers. -/

/-- Every outcome of place: success updates pos, direction and placed at
once with a validated position and direction, and every failure leaves the
state exactly as it was. -/
lemma place_cases (s : RobotState) (ad : Option String) :
    (∃ x y d, is_valid_pos s (x, y) = true ∧ is_valid_direction d = true ∧
        place s ad = .ok { s with pos := some (x, y), direction := some d, placed := true } []) ∨
    (∃ e, place s ad = .err e s) ∨
    (∃ f, place s ad = .fault f s) := by
  cases ad with
  | none => exact Or.inr (Or.inl ⟨.missingPlaceArgument, rfl⟩)
  | some a =>
    cases hsp : (splitOnChar ',' a).map pyStrip with
    | nil => exact Or.inr (Or.inl ⟨.malformedPlaceArgument a, by simp [place, hsp]⟩)
    | cons b t =>
      cases t with
      | nil => exact Or.inr (Or.inl ⟨.malformedPlaceArgument a, by simp [place, hsp]⟩)
      | cons c t2 =>
        cases t2 with
        | nil => exact Or.inr (Or.inl ⟨.malformedPlaceArgument a, by simp [place, hsp]⟩)
        | cons d t3 =>
          cases t3 with
          | cons d2 t4 =>
            exact Or.inr (Or.inl ⟨.malformedPlaceArgument a, by simp [place, hsp]⟩)
          | nil =>
            cases hx : pyInt b with
            | none => exact Or.inr (Or.inr ⟨.valueError b, by simp [place, hsp, hx]⟩)
            | some x =>
              cases hy : pyInt c with
              | none => exact Or.inr (Or.inr ⟨.valueError c, by simp [place, hsp, hx, hy]⟩)
              | some y =>
                cases hv : is_valid_pos s (x, y) with
                | false =>
                  exact Or.inr (Or.inl ⟨.outOfBounds s.map_size_x s.map_size_y,
                    by simp [place, hsp, hx, hy, hv]⟩)
                | true =>
                  cases hd : is_valid_direction d with
                  | false =>
                    exact Or.inr (Or.inl ⟨.invalidHeading, by simp [place, hsp, hx, hy, hv, hd]⟩)
                  | true =>
                    exact Or.inl ⟨x, y, d, hv, hd, by simp [place, hsp, hx, hy, hv, hd]⟩

/-- Every outcome of move: success shifts pos to a validated position while
the robot is placed, and every failure leaves the state exactly as it was. -/
lemma move_cases (s : RobotState) :
    (∃ p, s.placed = true ∧ is_valid_pos s p = true ∧
        move s = .ok { s with pos := some p } []) ∨
    (∃ e, move s = .err e s) ∨
    (∃ f, move s = .fault f s) := by
  cases hp : s.placed with
  | false => exact Or.inr (Or.inl ⟨.notPlaced, by simp [move, hp]⟩)
  | true =>
    cases hd : s.direction with
    | none => exact Or.inr (Or.inr ⟨.typeError "zip", by simp [move, hp, hd]⟩)
    | some d =>
      cases hst : STEP_BY_DIRECTION d with
      | none => exact Or.inr (Or.inr ⟨.typeError "zip", by simp [move, hp, hd, hst]⟩)
      | some step =>
        cases hpos : s.pos with
        | none => exact Or.inr (Or.inr ⟨.typeError "zip", by simp [move, hp, hd, hst, hpos]⟩)
        | some p =>
          cases hv : is_valid_pos s (p.1 + step.1, p.2 + step.2) with
          | false =>
            exact Or.inr (Or.inl ⟨.unreachableDestination (p.1 + step.1, p.2 + step.2),
              by simp [move, hp, hd, hst, hpos, hv]⟩)
          | true =>
            exact Or.inl ⟨(p.1 + step.1, p.2 + step.2), rfl, hv,
              by simp [move, hp, hd, hst, hpos, hv]⟩

/-- Every element the turn arithmetic can pick stays inside DIRECTIONS. -/
lemma getD_DIRECTIONS_mem : ∀ j < 4, DIRECTIONS.getD j "" ∈ DIRECTIONS := by decide

/-- Every outcome of turn: success replaces the direction with another
canonical direction while the robot is placed, and every failure leaves the
state exactly as it was. -/
lemma turn_cases (s : RobotState) (td : String) :
    (∃ d2, s.placed = true ∧ d2 ∈ DIRECTIONS ∧
        turn s td = .ok { s with direction := some d2 } []) ∨
    (∃ e, turn s td = .err e s) ∨
    (∃ f, turn s td = .fault f s) := by
  cases hp : s.placed with
  | false => exact Or.inr (Or.inl ⟨.notPlaced, by simp [turn, hp]⟩)
  | true =>
    cases hd : s.direction with
    | none => exact Or.inr (Or.inr ⟨.valueError "None", by simp [turn, hp, hd]⟩)
    | some d =>
      cases hidx : DIRECTIONS.findIdx? (fun x => x == d) with
      | none => exact Or.inr (Or.inr ⟨.valueError d, by simp [turn, hp, hd, hidx]⟩)
      | some i =>
        by_cases hR : td = "RIGHT"
        · exact Or.inl ⟨DIRECTIONS.getD ((i + 1) % 4) "", rfl,
            getD_DIRECTIONS_mem _ (Nat.mod_lt _ (by norm_num)),
            by simp [turn, hp, hd, hidx, hR]⟩
        · by_cases hL : td = "LEFT"
          · exact Or.inl ⟨DIRECTIONS.getD ((i + 3) % 4) "", rfl,
              getD_DIRECTIONS_mem _ (Nat.mod_lt _ (by norm_num)),
              by simp [turn, hp, hd, hidx, hR, hL]⟩
          · exact Or.inr (Or.inl ⟨.invalidTurnDirection td,
              by simp [turn, hp, hd, hidx, hR, hL]⟩)

/-- report never changes the state, whatever its outcome. -/
lemma report_state (s : RobotState) : stateOf (report s) = s := by
  unfold report
  split
  · rfl
  · split <;> rfl

/-! ### Preservation of the data-model invariant. -/

/-- place preserves the invariant. -/
lemma inv_place (s : RobotState) (ad : Option String) (h : inv s = true) :
    inv (stateOf (place s ad)) = true := by
  rcases place_cases s ad with ⟨x, y, d, hv, hd, heq⟩ | ⟨e0, heq⟩ | ⟨f0, heq⟩ <;> rw [heq]
  · simp only [stateOf, inv]
    simpa [is_valid_pos] using hv
  · simpa [stateOf] using h
  · simpa [stateOf] using h

/-- move preserves the invariant. -/
lemma inv_move (s : RobotState) (h : inv s = true) :
    inv (stateOf (move s)) = true := by
  rcases move_cases s with ⟨p, hp, hv, heq⟩ | ⟨e0, heq⟩ | ⟨f0, heq⟩ <;> rw [heq]
  · obtain ⟨pl, mx, my, pos, dir⟩ := s
    simp only [inv, is_valid_pos, stateOf] at h hv hp ⊢
    subst hp
    cases pos <;> simp_all
  · simpa [stateOf] using h
  · simpa [stateOf] using h

/-- turn preserves the invariant. -/
lemma inv_turn (s : RobotState) (td : String) (h : inv s = true) :
    inv (stateOf (turn s td)) = true := by
  rcases turn_cases s td with ⟨d2, hp, hd2, heq⟩ | ⟨e0, heq⟩ | ⟨f0, heq⟩ <;> rw [heq]
  · obtain ⟨pl, mx, my, pos, dir⟩ := s
    simp only [inv, is_valid_pos, stateOf] at h hp ⊢
    subst hp
    cases pos <;> simp_all
  · simpa [stateOf] using h
  · simpa [stateOf] using h

/-- report preserves the invariant. -/
lemma inv_report (s : RobotState) (h : inv s = true) :
    inv (stateOf (report s)) = true := by
  rw [report_state]; exact h

/-- dispatch preserves the invariant. -/
lemma inv_dispatch (s : RobotState) (action : String) (ad : Option String)
    (h : inv s = true) : inv (stateOf (dispatch s action ad)) = true := by
  unfold dispatch
  split
  · exact inv_place s ad h
  split
  · exact inv_turn s "LEFT" h
  split
  · exact inv_turn s "RIGHT" h
  split
  · split
    · exact inv_move s h
    · split <;> simpa [stateOf] using h
  split
  · split
    · exact inv_report s h
    · split <;> simpa [stateOf] using h
  split
  · split
    · simpa [stateOf, terminate] using h
    · simpa [stateOf] using h
  · simpa [stateOf] using h

/-! ### How each command can change the placed flag. -/

/-- move never changes the placed flag. -/
lemma placed_move (s : RobotState) : (stateOf (move s)).placed = s.placed := by
  rcases move_cases s with ⟨p, hp, hv, heq⟩ | ⟨e0, heq⟩ | ⟨f0, heq⟩ <;> rw [heq] <;> rfl

/-- turn never changes the placed flag. -/
lemma placed_turn (s : RobotState) (td : String) :
    (stateOf (turn s td)).placed = s.placed := by
  rcases turn_cases s td with ⟨d2, hp, hd2, heq⟩ | ⟨e0, heq⟩ | ⟨f0, heq⟩ <;> rw [heq] <;> rfl

/-- A placed robot stays placed through place. -/
lemma placed_place_mono (s : RobotState) (ad : Option String) (h : s.placed = true) :
    (stateOf (place s ad)).placed = true := by
  rcases place_cases s ad with ⟨x, y, d, hv, hd, heq⟩ | ⟨e0, heq⟩ | ⟨f0, heq⟩ <;> rw [heq]
  · rfl
  · exact h
  · exact h

/-- A placed robot stays placed through every dispatched command. -/
lemma placed_dispatch_mono (s : RobotState) (action : String) (ad : Option String)
    (h : s.placed = true) : (stateOf (dispatch s action ad)).placed = true := by
  unfold dispatch
  split
  · exact placed_place_mono s ad h
  split
  · rw [placed_turn]; exact h
  split
  · rw [placed_turn]; exact h
  split
  · split
    · rw [placed_move]; exact h
    · split <;> exact h
  split
  · split
    · rw [report_state]; exact h
    · split <;> exact h
  split
  · split
    · exact h
    · exact h
  · exact h

/-- No keyword other than PLACE changes the placed flag at all. -/
lemma placed_dispatch_nonplace (s : RobotState) (action : String) (ad : Option String)
    (hne : action ≠ "PLACE") : (stateOf (dispatch s action ad)).placed = s.placed := by
  unfold dispatch
  split
  · next hbeq => exact absurd (by simpa using hbeq) hne
  split
  · exact placed_turn s "LEFT"
  split
  · exact placed_turn s "RIGHT"
  split
  · split
    · exact placed_move s
    · split <;> rfl
  split
  · split
    · rw [report_state]
    · split <;> rfl
  split
  · split
    · rfl
    · rfl
  · rfl

/-- A placed robot stays placed through a whole run. -/
lemma placed_runLines (cmds : List String) :
    ∀ s : RobotState, s.placed = true → (runLines s cmds).1.placed = true := by
  induction cmds with
  | nil => intro s h; simpa [runLines] using h
  | cons line rest ih =>
    intro s h
    have hmono : (stateOf (execute_command s (pyUpper line))).placed = true :=
      placed_dispatch_mono s _ _ h
    cases hx : execute_command s (pyUpper line) with
    | ok s2 out =>
      rw [hx] at hmono
      simpa [runLines, hx] using ih s2 hmono
    | exitSignal s2 out =>
      rw [hx] at hmono
      simpa [runLines, hx] using hmono
    | err e s2 =>
      rw [hx] at hmono
      simpa [runLines, hx] using ih s2 hmono
    | fault f s2 =>
      rw [hx] at hmono
      simpa [runLines, hx] using hmono

/-! ### The claims. -/

/-- C1: for every valid position (x, y) with 0 ≤ x < 5 and 0 ≤ y < 5 on the
default 5 by 5 grid, and each of the four headings, executing
PLACE x,y,HEADING and then REPORT succeeds and reports exactly the string
"x, y, HEADING". -/
theorem c1_place_then_report :
    ∀ x < 5, ∀ y < 5, ∀ d ∈ DIRECTIONS,
      execute_command initRobot ("PLACE " ++ toString x ++ "," ++ toString y ++ "," ++ d) =
        .ok (stateOf (execute_command initRobot
              ("PLACE " ++ toString x ++ "," ++ toString y ++ "," ++ d))) [] ∧
      execute_command (stateOf (execute_command initRobot
            ("PLACE " ++ toString x ++ "," ++ toString y ++ "," ++ d))) "REPORT" =
        .ok (stateOf (execute_command initRobot
              ("PLACE " ++ toString x ++ "," ++ toString y ++ "," ++ d)))
          [toString x ++ ", " ++ toString y ++ ", " ++ d] := by decide

/-- Witness for C1 at x = 1, y = 2, heading EAST. -/
theorem c1_place_then_report_witness :
    execute_command initRobot ("PLACE " ++ toString 1 ++ "," ++ toString 2 ++ "," ++ "EAST") =
      .ok (stateOf (execute_command initRobot
            ("PLACE " ++ toString 1 ++ "," ++ toString 2 ++ "," ++ "EAST"))) [] ∧
    execute_command (stateOf (execute_command initRobot
          ("PLACE " ++ toString 1 ++ "," ++ toString 2 ++ "," ++ "EAST"))) "REPORT" =
      .ok (stateOf (execute_command initRobot
            ("PLACE " ++ toString 1 ++ "," ++ toString 2 ++ "," ++ "EAST")))
        [toString 1 ++ ", " ++ toString 2 ++ ", " ++ "EAST"] :=
  c1_place_then_report 1 (by decide) 2 (by decide) "EAST" (by decide)

/-- C2: the data-model invariant (position and heading defined exactly when
placed, and a placed robot in bounds) holds initially and is preserved by
every command; no command whose keyword differs from PLACE turns the placed
flag from false to true; and once placed the robot stays placed, both for a
single command and for every sequence of run lines. -/
theorem c2_state_invariant :
    inv initRobot = true ∧
    (∀ s cmd, inv s = true → inv (stateOf (execute_command s cmd)) = true) ∧
    (∀ s cmd, s.placed = false → (stateOf (execute_command s cmd)).placed = true →
        (splitFirstSpace (pyStrip cmd)).1 = "PLACE") ∧
    (∀ s cmd, s.placed = true → (stateOf (execute_command s cmd)).placed = true) ∧
    (∀ s cmds, s.placed = true → (runLines s cmds).1.placed = true) := by
  refine ⟨by decide, ?_, ?_, ?_, ?_⟩
  · intro s cmd h
    exact inv_dispatch s _ _ h
  · intro s cmd h0 h1
    by_cases hk : (splitFirstSpace (pyStrip cmd)).1 = "PLACE"
    · exact hk
    · exfalso
      have hne := placed_dispatch_nonplace s (splitFirstSpace (pyStrip cmd)).1
        (splitFirstSpace (pyStrip cmd)).2 hk
      rw [execute_command] at h1
      rw [hne, h0] at h1
      exact Bool.false_ne_true h1
  · intro s cmd h
    exact placed_dispatch_mono s _ _ h
  · intro s cmds h
    exact placed_runLines cmds s h

/-- Witness for C2: the invariant after one command from the initial state,
and placedness preservation at a concrete placed state. -/
theorem c2_state_invariant_witness :
    inv (stateOf (execute_command initRobot "PLACE 1,2,EAST")) = true ∧
    (stateOf (execute_command (⟨true, 5, 5, some (1, 2), some "EAST"⟩ : RobotState)
        "MOVE")).placed = true :=
  ⟨c2_state_invariant.2.1 initRobot "PLACE 1,2,EAST" (by decide),
   c2_state_invariant.2.2.2.1 ⟨true, 5, 5, some (1, 2), some "EAST"⟩ "MOVE" (by decide)⟩

/-- C3: for a placed robot, MOVE adds the unit step vector of the current
heading (NORTH: (0, 1), SOUTH: (0, -1), EAST: (1, 0), WEST: (-1, 0)) to the
position; an in-bounds candidate becomes the new position, an out-of-bounds
candidate fails with the UnreachableDestination error carrying the candidate
coordinates, whose message spells those coordinates out, and the state is
left unchanged. -/
theorem c3_move_step (s : RobotState) (p step : Int × Int) (d : String)
    (hp : s.placed = true) (hpos : s.pos = some p) (hdir : s.direction = some d)
    (hstep : STEP_BY_DIRECTION d = some step) :
    (STEP_BY_DIRECTION "NORTH" = some (0, 1) ∧ STEP_BY_DIRECTION "SOUTH" = some (0, -1) ∧
       STEP_BY_DIRECTION "EAST" = some (1, 0) ∧ STEP_BY_DIRECTION "WEST" = some (-1, 0)) ∧
    (is_valid_pos s (p.1 + step.1, p.2 + step.2) = true →
       move s = .ok { s with pos := some (p.1 + step.1, p.2 + step.2) } []) ∧
    (is_valid_pos s (p.1 + step.1, p.2 + step.2) = false →
       move s = .err (.unreachableDestination (p.1 + step.1, p.2 + step.2)) s ∧
       message (.unreachableDestination (p.1 + step.1, p.2 + step.2)) =
         "Destination (" ++ toString (p.1 + step.1) ++ ", " ++
           toString (p.2 + step.2) ++ ") cannot be reached.") := by
  refine ⟨by decide, ?_, ?_⟩ <;> intro hv
  · simp [move, hp, hpos, hdir, hstep, hv]
  · exact ⟨by simp [move, hp, hpos, hdir, hstep, hv], rfl⟩

/-- Witness for C3 at the boundary example of the spec: placed at (0, 4)
facing NORTH, MOVE fails referencing destination (0, 5). -/
theorem c3_move_step_witness :
    move ⟨true, 5, 5, some (0, 4), some "NORTH"⟩ =
      .err (.unreachableDestination (0, 5)) ⟨true, 5, 5, some (0, 4), some "NORTH"⟩ := by
  have h := c3_move_step ⟨true, 5, 5, some (0, 4), some "NORTH"⟩ (0, 4) (0, 1) "NORTH"
    rfl rfl rfl (by decide)
  exact (h.2.2 (by decide)).1

/-- C4: PLACE is atomic. A target that parses to an out-of-range pair fails
with the OutOfBounds error and leaves the state, in particular the placed
flag of a not-yet-placed robot, untouched; every failing place (typed error
or untyped fault) leaves the state exactly as it was; and a successful place
returns the state with position, heading and placed all updated together. -/
theorem c4_place_atomic :
    (∀ s ad sx sy sd, ∀ x y : Int,
        (splitOnChar ',' ad).map pyStrip = [sx, sy, sd] →
        pyInt sx = some x → pyInt sy = some y →
        is_valid_pos s (x, y) = false →
        place s (some ad) = .err (.outOfBounds s.map_size_x s.map_size_y) s) ∧
    (∀ s ad e s2, place s ad = .err e s2 → s2 = s) ∧
    (∀ s ad f s2, place s ad = .fault f s2 → s2 = s) ∧
    (∀ s ad s2 out, place s ad = .ok s2 out →
        out = [] ∧ ∃ x y d, is_valid_pos s (x, y) = true ∧ is_valid_direction d = true ∧
          s2 = { s with pos := some (x, y), direction := some d, placed := true }) := by
  refine ⟨?_, ?_, ?_, ?_⟩
  · intro s ad sx sy sd x y hsp hx hy hv
    simp [place, hsp, hx, hy, hv]
  · intro s ad e s2 h
    rcases place_cases s ad with ⟨x, y, d, hv, hd, heq⟩ | ⟨e0, heq⟩ | ⟨f0, heq⟩ <;>
      rw [heq] at h
    · exact ExecResult.noConfusion h
    · injection h with h1 h2; exact h2.symm
    · exact ExecResult.noConfusion h
  · intro s ad f s2 h
    rcases place_cases s ad with ⟨x, y, d, hv, hd, heq⟩ | ⟨e0, heq⟩ | ⟨f0, heq⟩ <;>
      rw [heq] at h
    · exact ExecResult.noConfusion h
    · exact ExecResult.noConfusion h
    · injection h with h1 h2; exact h2.symm
  · intro s ad s2 out h
    rcases place_cases s ad with ⟨x, y, d, hv, hd, heq⟩ | ⟨e0, heq⟩ | ⟨f0, heq⟩ <;>
      rw [heq] at h
    · injection h with h1 h2
      exact ⟨h2.symm, x, y, d, hv, hd, h1.symm⟩
    · exact ExecResult.noConfusion h
    · exact ExecResult.noConfusion h

/-- Witness for C4 at the out-of-range target (9, 9) on a fresh robot. -/
theorem c4_place_atomic_witness :
    place initRobot (some "9,9,NORTH") = .err (.outOfBounds 5 5) initRobot :=
  c4_place_atomic.1 initRobot "9,9,NORTH" "9" "9" "NORTH" 9 9
    (by decide) (by decide) (by decide) (by decide)

/-- C5 counterexample: the EXIT handler carries no placed check. On a robot
that was never placed, EXIT does not fail with the NotPlaced error; it
succeeds with the termination signal. -/
theorem c5_exit_skips_placed_check :
    initRobot.placed = false ∧
    execute_command initRobot "EXIT" = .exitSignal initRobot ["End of service."] := by decide

/-- C5 as amended: every handler except PLACE and EXIT, that is MOVE, LEFT,
RIGHT and REPORT, first checks that the robot has been placed and fails with
the NotPlaced error, leaving the state unchanged, when invoked before any
successful PLACE; EXIT instead yields the termination signal regardless of
placement. -/
theorem c5_not_placed_guard (s : RobotState) (h : s.placed = false) :
    execute_command s "MOVE" = .err .notPlaced s ∧
    execute_command s "LEFT" = .err .notPlaced s ∧
    execute_command s "RIGHT" = .err .notPlaced s ∧
    execute_command s "REPORT" = .err .notPlaced s ∧
    execute_command s "EXIT" = .exitSignal s ["End of service."] := by
  have hM : execute_command s "MOVE" = move s := rfl
  have hL : execute_command s "LEFT" = turn s "LEFT" := rfl
  have hR : execute_command s "RIGHT" = turn s "RIGHT" := rfl
  have hRep : execute_command s "REPORT" = report s := rfl
  have hE : execute_command s "EXIT" = terminate s := rfl
  rw [hM, hL, hR, hRep, hE]
  refine ⟨?_, ?_, ?_, ?_, rfl⟩ <;> simp [move, turn, report, h]

/-- Witness for C5 amended, on a fresh robot. -/
theorem c5_not_placed_guard_witness :
    execute_command initRobot "MOVE" = .err .notPlaced initRobot :=
  (c5_not_placed_guard initRobot rfl).1

/-- C6: for a placed robot, turning is index arithmetic modulo 4 over
DIRECTIONS = (NORTH, EAST, SOUTH, WEST): RIGHT sends index i to
(i + 1) mod 4 and LEFT to (i - 1) mod 4, written (i + 3) mod 4 on Nat; and
four consecutive LEFT turns or four consecutive RIGHT turns restore the
original state, heading included. -/
theorem c6_turn_mod_four :
    (∀ (s : RobotState) (d : String) (i : Nat), s.placed = true → s.direction = some d →
        DIRECTIONS.findIdx? (fun x => x == d) = some i →
        turn s "RIGHT" = .ok { s with direction := some (DIRECTIONS.getD ((i + 1) % 4) "") } [] ∧
        turn s "LEFT" = .ok { s with direction := some (DIRECTIONS.getD ((i + 3) % 4) "") } []) ∧
    (∀ (s : RobotState) (d : String), s.placed = true → s.direction = some d →
        d ∈ DIRECTIONS →
        stateOf (turn (stateOf (turn (stateOf (turn (stateOf
          (turn s "LEFT")) "LEFT")) "LEFT")) "LEFT") = s ∧
        stateOf (turn (stateOf (turn (stateOf (turn (stateOf
          (turn s "RIGHT")) "RIGHT")) "RIGHT")) "RIGHT") = s) := by
  constructor
  · intro s d i hp hd hidx
    constructor <;> simp [turn, hp, hd, hidx]
  · intro s d hp hd hmem
    obtain ⟨pl, mx, my, pos, dir⟩ := s
    simp only at hp hd
    subst hp
    subst hd
    simp only [DIRECTIONS, List.mem_cons, List.not_mem_nil, or_false] at hmem
    rcases hmem with rfl | rfl | rfl | rfl <;> exact ⟨rfl, rfl⟩

/-- Witness for C6 from heading EAST at (0, 0). -/
theorem c6_turn_mod_four_witness :
    stateOf (turn (stateOf (turn (stateOf (turn (stateOf
        (turn (⟨true, 5, 5, some (0, 0), some "EAST"⟩ : RobotState) "LEFT")) "LEFT")) "LEFT"))
      "LEFT") = (⟨true, 5, 5, some (0, 0), some "EAST"⟩ : RobotState) :=
  (c6_turn_mod_four.2 ⟨true, 5, 5, some (0, 0), some "EAST"⟩ "EAST" rfl rfl (by decide)).1

/-- C7: a PLACE argument with three comma-separated parts whose first or
second part is not an integer literal does not produce a typed
InvalidOperationException in the source; the int() conversion raises an
uncaught ValueError, an untyped fault. The spec hardens this case to a
typed MalformedArgument error, so the code diverges from the claim here. -/
theorem c7_place_nonint_untyped_fault :
    execute_command initRobot "PLACE A,0,NORTH" = .fault (.valueError "A") initRobot ∧
    execute_command initRobot "PLACE 0,B,NORTH" = .fault (.valueError "B") initRobot := by decide

/-- C8: execute does not always fail typed. A recognized no-argument command
followed by extra text binds an action_details keyword argument the handler
cannot accept: EXIT with extra text raises an untyped TypeError on any
robot, and MOVE with extra text raises one on a placed robot. -/
theorem c8_extra_text_untyped_fault :
    execute_command initRobot "EXIT X" = .fault (.typeError "terminate") initRobot ∧
    execute_command (⟨true, 5, 5, some (1, 2), some "EAST"⟩ : RobotState) "MOVE X" =
      .fault (.typeError "move") ⟨true, 5, 5, some (1, 2), some "EAST"⟩ := by decide

/-- C9: frame conditions. REPORT never mutates the state, whatever its
outcome, and repeating it without intervening commands yields the identical
result; a successful MOVE changes only the position; a successful turn
changes only the heading. -/
theorem c9_frame_conditions :
    (∀ s, stateOf (report s) = s) ∧
    (∀ s, report (stateOf (report s)) = report s) ∧
    (∀ s s2 out, move s = .ok s2 out →
        s2.placed = s.placed ∧ s2.direction = s.direction ∧
        s2.map_size_x = s.map_size_x ∧ s2.map_size_y = s.map_size_y) ∧
    (∀ s td s2 out, turn s td = .ok s2 out →
        s2.placed = s.placed ∧ s2.pos = s.pos ∧
        s2.map_size_x = s.map_size_x ∧ s2.map_size_y = s.map_size_y) := by
  refine ⟨report_state, fun s => by rw [report_state], ?_, ?_⟩
  · intro s s2 out h
    rcases move_cases s with ⟨p, hp, hv, heq⟩ | ⟨e0, heq⟩ | ⟨f0, heq⟩ <;> rw [heq] at h
    · injection h with h1 h2
      subst h1
      exact ⟨rfl, rfl, rfl, rfl⟩
    · exact ExecResult.noConfusion h
    · exact ExecResult.noConfusion h
  · intro s td s2 out h
    rcases turn_cases s td with ⟨d2, hp, hd2, heq⟩ | ⟨e0, heq⟩ | ⟨f0, heq⟩ <;> rw [heq] at h
    · injection h with h1 h2
      subst h1
      exact ⟨rfl, rfl, rfl, rfl⟩
    · exact ExecResult.noConfusion h
    · exact ExecResult.noConfusion h

/-- Witness for C9: a successful MOVE from (2, 2) facing NORTH keeps the
placed flag and the heading. -/
theorem c9_frame_conditions_witness :
    (⟨true, 5, 5, some (2, 3), some "NORTH"⟩ : RobotState).placed =
        (⟨true, 5, 5, some (2, 2), some "NORTH"⟩ : RobotState).placed ∧
      (⟨true, 5, 5, some (2, 3), some "NORTH"⟩ : RobotState).direction =
        (⟨true, 5, 5, some (2, 2), some "NORTH"⟩ : RobotState).direction ∧
      (⟨true, 5, 5, some (2, 3), some "NORTH"⟩ : RobotState).map_size_x =
        (⟨true, 5, 5, some (2, 2), some "NORTH"⟩ : RobotState).map_size_x ∧
      (⟨true, 5, 5, some (2, 3), some "NORTH"⟩ : RobotState).map_size_y =
        (⟨true, 5, 5, some (2, 2), some "NORTH"⟩ : RobotState).map_size_y :=
  c9_frame_conditions.2.2.1 ⟨true, 5, 5, some (2, 2), some "NORTH"⟩
    ⟨true, 5, 5, some (2, 3), some "NORTH"⟩ [] (by decide)

/-- C10: from a fresh robot on the default 5 by 5 grid, the lines
PLACE 1,2,EAST / MOVE / MOVE / LEFT / MOVE / REPORT print exactly the final
report "3, 3, NORTH". -/
theorem c10_end_to_end :
    runLines initRobot ["PLACE 1,2,EAST", "MOVE", "MOVE", "LEFT", "MOVE", "REPORT"] =
      ({ placed := true, map_size_x := 5, map_size_y := 5,
         pos := some (3, 3), direction := some "NORTH" }, ["3, 3, NORTH"]) := by decide

end ToyRobot
